import Mathlib

/-!
Shallow embedding of `src/aws_lambda_layer/bin/python/sitecustomize.py`
(the AWS X-Ray Lambda layer auto-instrumentation activator) and, modelled
from the spec, of the process wrapper script the repository ships but whose
source is not under `src/`.

The activator is a straight-line Python module:
  * module load configures a logger at INFO level;
  * `setup()` switches the logger to DEBUG when the environment variable
    `AWS_LAMBDA_AWS_XRAY_LOGGING_LEVEL` equals `"DEBUG"`;
  * `instrument()` tries `import botocore` (ImportError caught: warn and
    return), then runs `from packaging import version` (NOT inside any
    try/except), compares `botocore.__version__` against `"1.11.3"` using
    `packaging.version.parse` (warn and return when strictly below), and
    finally tries `from aws_xray_sdk.core import patch_all` (ImportError
    caught: warn and return) and calls `patch_all(double_patch=True)`.

We model the environment as a partial map from variable names to values,
the dependency state of the interpreter as a record saying which of the
three fallible imports would succeed (and with which `botocore.__version__`
string), and `instrument` as a total Lean function returning either the
Python exception that escapes it or the trace it produces: the sequence of
logger calls (each call is recorded whether or not the logger level lets it
print — emission is a separate filtering step) together with the list of
`double_patch` flags of the `patch_all` calls it issues.
-/

/-- An OS environment: `os.environ.get`. -/
def Env : Type := String → Option String

/-- Python logging level numbers used by the module (`logging.DEBUG`). -/
def LOG_DEBUG : Nat := 10

/-- Python logging level numbers used by the module (`logging.INFO`). -/
def LOG_INFO : Nat := 20

/-- Python logging level numbers used by the module (`logging.WARNING`). -/
def LOG_WARNING : Nat := 30

/-- A call made on the module logger: `logger.debug(msg)` or
`logger.warning(msg)`.  We record every call; whether a call is printed is
decided later by the logger level (see `emitted`). -/
inductive LogCall where
  | debug (msg : String)
  | warning (msg : String)
deriving DecidableEq, Repr

/-- The numeric level of a logger call, as in Python's `logging`. -/
def LogCall.level : LogCall → Nat
  | .debug _ => LOG_DEBUG
  | .warning _ => LOG_WARNING

/-- The records a logger at level `lvl` actually prints: a call is emitted
iff its level is at least the logger's level. -/
def emitted (lvl : Nat) (calls : List LogCall) : List LogCall :=
  calls.filter (fun c => lvl ≤ c.level)

/-- The dependency state of the interpreter at activation time: which of
the three imports performed by `instrument` would succeed.  `botocore` is
`some v` when `import botocore` succeeds and `botocore.__version__` is the
string `v`; `packaging` says whether `from packaging import version`
succeeds; `awsXraySdk` says whether `from aws_xray_sdk.core import
patch_all` succeeds. -/
structure DepState where
  botocore : Option String
  packaging : Bool
  awsXraySdk : Bool
deriving DecidableEq, Repr

/-- A Python exception escaping `instrument`: an uncaught `ImportError`
(only possible for the `packaging` import, the other two are caught), or
an uncaught error from `packaging.version.parse` on a version string our
version model cannot parse. -/
inductive PyErr where
  | importError (module : String)
  | invalidVersion (s : String)
deriving DecidableEq, Repr

/-- Read a nonempty all-digit run of characters as a decimal number. -/
def decimalChars (cs : List Char) : Option Nat :=
  if cs.isEmpty then none
  else if cs.all Char.isDigit then
    some (cs.foldl (fun n c => 10 * n + (c.toNat - 48)) 0)
  else none

/-- Split a character list into the runs between `'.'` separators. -/
def splitDots : List Char → List (List Char)
  | [] => [[]]
  | c :: cs =>
      if c = '.' then [] :: splitDots cs
      else
        match splitDots cs with
        | [] => [[c]]
        | g :: gs => (c :: g) :: gs

/-- Model of `packaging.version.parse`, restricted to plain release
versions (`"1.11.3"`-style dot-separated numeric components), which are the
only version strings the spec and the code's comments speak about.
`packaging` is a third-party library consumed by the activator as a black
box; for release versions it parses to the tuple of numeric components. -/
def parseVersion (s : String) : Option (List Nat) :=
  (splitDots s.toList).mapM decimalChars

/-- Model of `packaging`'s strict order `<` on parsed release versions:
the shorter release tuple is padded with zeros, then tuples compare
lexicographically. -/
def versionLt : List Nat → List Nat → Bool
  | [], b => b.any (fun x => x != 0)
  | a :: as, [] => (a == 0) && versionLt as []
  | a :: as, b :: bs => Nat.blt a b || ((a == b) && versionLt as bs)

/-- The comparison `version.parse a < version.parse b` that `instrument`
applies at its version gate, as a function of the two raw strings
(`none` when a string is not a release version our model parses). -/
def pyVersionLt (a b : String) : Option Bool :=
  match parseVersion a, parseVersion b with
  | some x, some y => some (versionLt x y)
  | _, _ => none

/-- Plain lexicographic (code-point by code-point) comparison of character
lists: the string ordering a naive `botocore.__version__ < "1.11.3"`
string comparison would use. -/
def lexLtChars : List Char → List Char → Bool
  | [], [] => false
  | [], _ :: _ => true
  | _ :: _, [] => false
  | a :: as, b :: bs => decide (a < b) || ((a == b) && lexLtChars as bs)

/-- Lexical string comparison (what the version gate must NOT use). -/
def stringLexLt (a b : String) : Bool :=
  lexLtChars a.toList b.toList

/-- The minimum botocore version required by the AWS X-Ray SDK,
`version.parse "1.11.3"`. -/
def minBotocore : List Nat := [1, 11, 3]

/-- What one run of `instrument` does, when no exception escapes it: the
sequence of logger calls it makes, in order, and the list of `patch_all`
calls it issues, each recorded as the value of its `double_patch`
argument. -/
structure InstrTrace where
  calls : List LogCall
  patches : List Bool
deriving DecidableEq, Repr

/-- `setup()`: switch the logger (currently at level `lvl`) to DEBUG iff
`os.environ.get("AWS_LAMBDA_AWS_XRAY_LOGGING_LEVEL", "INFO") == "DEBUG"`. -/
def setup (env : Env) (lvl : Nat) : Nat :=
  if ((env "AWS_LAMBDA_AWS_XRAY_LOGGING_LEVEL").getD "INFO") = "DEBUG" then
    LOG_DEBUG
  else lvl

/-- `instrument()`, line by line.  `logger.debug("Instrumenting AWS
X-Ray")`; `import botocore` with `ImportError` caught (warn and return);
`from packaging import version` NOT under a try, so a missing `packaging`
escapes as an `ImportError`; the version gate warning names the installed
and required versions; `from aws_xray_sdk.core import patch_all` with
`ImportError` caught (warn and return); `patch_all(double_patch=True)`
preceded by `logger.debug("patching all")`. -/
def instrument (s : DepState) : Except PyErr InstrTrace :=
  let calls := [LogCall.debug "Instrumenting AWS X-Ray"]
  match s.botocore with
  | none =>
      .ok { calls := calls ++
              [LogCall.warning "botocore package is not available. Skipping AWS X-Ray instrumentation."],
            patches := [] }
  | some v =>
      let calls := calls ++ [LogCall.debug "botocore package is available"]
      if s.packaging = false then
        .error (.importError "packaging")
      else
        match parseVersion v with
        | none => .error (.invalidVersion v)
        | some pv =>
            if versionLt pv minBotocore then
              .ok { calls := calls ++
                      [LogCall.warning ("botocore version " ++ v ++ " is less than required 1.11.3. Skipping AWS X-Ray instrumentation.")],
                    patches := [] }
            else
              let calls := calls ++ [LogCall.debug "botocore version is >= 1.11.3"]
              if s.awsXraySdk then
                .ok { calls := calls ++
                        [LogCall.debug "patching all",
                         LogCall.debug "AWS X-Ray instrumentation successfully applied."],
                      patches := [true] }
              else
                .ok { calls := calls ++
                        [LogCall.warning "aws_xray_sdk package is not available. Skipping AWS X-Ray instrumentation."],
                      patches := [] }

/-- `Except.isOk` as a plain boolean: the run completed without an
exception escaping. -/
def exceptOk {ε α : Type} : Except ε α → Bool
  | .ok _ => true
  | .error _ => false

/-- What the startup hook (the module-level `setup()`/`instrument()` calls
at the bottom of `sitecustomize.py`) produces: the logger level after
`setup`, and `instrument`'s outcome.  `setup` reads the environment and
cannot raise; any exception escaping `instrument` escapes the hook. -/
structure ActOutcome where
  loggerLevel : Nat
  result : Except PyErr InstrTrace
deriving Repr

/-- The startup hook: module load leaves the logger at INFO, then
`setup()` runs, then `instrument()`. -/
def activate (env : Env) (s : DepState) : ActOutcome :=
  let lvl := setup env LOG_INFO
  { loggerLevel := lvl, result := instrument s }

/-- The host-process state the tracing SDK mutates: whether process-wide
patching has been applied. -/
structure Proc where
  patched : Bool
deriving DecidableEq, Repr

/-- Modelled from the spec: `aws_xray_sdk.core.patch_all`, a third-party
black box whose source is not part of this repository.  Per the spec,
"the request must tolerate being issued more than once per process
(idempotent/'double patch' semantics)", and per the code comment,
"double_patch=True allows re-patching if called multiple times": a call
with `double_patch=True` always succeeds and leaves the process patched,
while a repeated call without it is the re-entry the flag exists to
tolerate. -/
def patchAll (doublePatch : Bool) (p : Proc) : Except PyErr Proc :=
  if p.patched && !doublePatch then .error (.importError "double patch rejected")
  else .ok { patched := true }

/-- Run a list of recorded `patch_all` calls (their `double_patch` flags)
against the process state. -/
def runPatchCalls (p : Proc) (flags : List Bool) : Except PyErr Proc :=
  flags.foldlM (fun q f => patchAll f q) p

/-- One invocation of `instrument` acting on the process state: compute
its trace and apply its `patch_all` calls. -/
def instrumentOn (s : DepState) (p : Proc) : Except PyErr Proc :=
  match instrument s with
  | .error e => .error e
  | .ok r => runPatchCalls p r.patches

/-- The initial, unpatched process. -/
def procInit : Proc := { patched := false }

/-- The empty environment (no variables set). -/
def envEmpty : Env := fun _ => none

/-- An environment that only sets the activator's logging-level variable
to `"DEBUG"`. -/
def envDebug : Env := fun k =>
  if k = "AWS_LAMBDA_AWS_XRAY_LOGGING_LEVEL" then some "DEBUG" else none

/-- The outside world visible to the process wrapper: whether a path
exists and is executable, how long the self-test diagnostic command runs
and what it prints, and the exit code and output the real entry point
would produce when exec'd. -/
structure WrapperWorld where
  pathFound : String → Bool
  pathExecutable : String → Bool
  diagDuration : Nat
  diagOutput : String
  targetExit : Nat
  targetOutput : List String

/-- The observable outcome of one wrapper process: its exit code, the
lines it printed, and whether it transferred control to the real entry
point. -/
structure WrapperOutcome where
  exitCode : Nat
  output : List String
  execedTarget : Bool
deriving DecidableEq, Repr

/-- The literal marker line prefix the wrapper's self-test mode prints. -/
def testMarker : String := "TEST_AND_EXIT: Command output:"

/-- Modelled from the spec: the Process Wrapper executable (the layer's
`bin/bootstrap` script, exercised by `src/tests/test_sitecustomize.py` but
whose source is not under `src/`).  Per spec section 4.1: when the
self-test trigger `TEST_AND_EXIT` is present in the environment, the
wrapper runs a short diagnostic command bounded by the configurable
timeout `TEST_AND_EXIT_TIMEOUT`, prints a marker line containing the
diagnostic's output, and exits with status 0 on success (a diagnostic
overrunning the timeout is surfaced as a failure); otherwise it execs the
configured entry point, passing exit code and output through unchanged,
and when that entry point does not exist or cannot be executed it
propagates the host's standard "command not found" exit code 127. -/
def wrapperRun (env : Env) (w : WrapperWorld) (target : String) : WrapperOutcome :=
  match env "TEST_AND_EXIT" with
  | some _ =>
      let timeout := ((env "TEST_AND_EXIT_TIMEOUT").bind (fun t => decimalChars t.toList)).getD 0
      if w.diagDuration ≤ timeout then
        { exitCode := 0, output := [testMarker ++ " " ++ w.diagOutput], execedTarget := false }
      else
        { exitCode := 1, output := [], execedTarget := false }
  | none =>
      if w.pathFound target && w.pathExecutable target then
        { exitCode := w.targetExit, output := w.targetOutput, execedTarget := true }
      else
        { exitCode := 127, output := [], execedTarget := false }

/-- A wrapper world in which no path exists (the misconfigured-deployment
scenario of `test_aws_lambda_exec_wrapper`). -/
def worldBad : WrapperWorld :=
  { pathFound := fun _ => false
    pathExecutable := fun _ => false
    diagDuration := 1
    diagOutput := "hello from layer"
    targetExit := 0
    targetOutput := [] }

/-- A wrapper world with a healthy entry point and a diagnostic command
that finishes in one time unit. -/
def worldGood : WrapperWorld :=
  { pathFound := fun _ => true
    pathExecutable := fun _ => true
    diagDuration := 1
    diagOutput := "hello from layer"
    targetExit := 42
    targetOutput := ["real output"] }

/-- The environment `test_sitecustomize` sets for the wrapper self-test:
`TEST_AND_EXIT=1`, `TEST_AND_EXIT_TIMEOUT=2`. -/
def envSelfTest : Env := fun k =>
  if k = "TEST_AND_EXIT" then some "1"
  else if k = "TEST_AND_EXIT_TIMEOUT" then some "2"
  else none

/-- Helper shared by the safety claims: on every dependency state in which
the bundled `packaging` distribution imports and any installed botocore
version string is a parseable release version, `instrument` completes
without an exception escaping. -/
theorem instrument_ok_of_parseable (s : DepState)
    (hp : s.packaging = true)
    (hv : ∀ v, s.botocore = some v → (parseVersion v).isSome = true) :
    exceptOk (instrument s) = true := by
  cases hb : s.botocore with
  | none => simp [instrument, hb, exceptOk]
  | some v =>
      rcases Option.isSome_iff_exists.mp (hv v hb) with ⟨pv, hpv⟩
      simp only [instrument, hb, hpv]
      rw [if_neg (by simp [hp])]
      split
      · rfl
      · split <;> rfl

/-- C1: For every dependency state in the supported set — botocore absent,
botocore present but strictly below the version floor, botocore present
and compatible, or aws_xray_sdk absent — running the activator's
`instrument()` completes without raising any exception.  The supported
states are exactly those in which the bundled `packaging` distribution is
importable and any installed botocore version string is a parseable
release version (the below/at-floor split presupposes the version
compares at all). -/
theorem instrument_supported_states_no_raise (s : DepState)
    (hp : s.packaging = true)
    (hv : ∀ v, s.botocore = some v → (parseVersion v).isSome = true) :
    exceptOk (instrument s) = true :=
  instrument_ok_of_parseable s hp hv

/-- Witness for C1: the theorem applied to all four concrete supported
states (absent, present-but-old, present-and-compatible, SDK-absent). -/
theorem instrument_supported_states_no_raise_witness :
    exceptOk (instrument ⟨none, true, true⟩) = true
    ∧ exceptOk (instrument ⟨some "1.10.0", true, true⟩) = true
    ∧ exceptOk (instrument ⟨some "1.36.0", true, true⟩) = true
    ∧ exceptOk (instrument ⟨some "1.36.0", true, false⟩) = true :=
  ⟨instrument_supported_states_no_raise _ rfl (fun _ hv => Option.noConfusion hv),
   instrument_supported_states_no_raise _ rfl
     (fun v hv => by injection hv with h; subst h; decide),
   instrument_supported_states_no_raise _ rfl
     (fun v hv => by injection hv with h; subst h; decide),
   instrument_supported_states_no_raise _ rfl
     (fun v hv => by injection hv with h; subst h; decide)⟩

/-- C2 counterexample: there is a dependency state at activation time in
which an exception does propagate out of the startup hook.  With botocore
present and the bundled `packaging` distribution missing (a
partially-assembled layer), line 59's `from packaging import version` is
not inside any try/except, so its ImportError escapes the module-level
`instrument()` call. -/
theorem activation_packaging_missing_raises :
    (activate envEmpty { botocore := some "1.20.0", packaging := false, awsXraySdk := true }).result
      = .error (.importError "packaging") := rfl

/-- C2 (amended): for every environment and every dependency state in
which the bundled `packaging` distribution is importable and any installed
botocore version string is a parseable release version, every error
arising during activation is caught where it is detected and converted to
a log call, and no exception propagates out of the startup hook (the
module-level `setup()`/`instrument()` calls); activation never alters the
host process's exit code. -/
theorem activation_no_raise_when_deps_parseable (env : Env) (s : DepState)
    (hp : s.packaging = true)
    (hv : ∀ v, s.botocore = some v → (parseVersion v).isSome = true) :
    exceptOk (activate env s).result = true :=
  instrument_ok_of_parseable s hp hv

/-- Witness for the amended C2, at a concrete environment and state. -/
theorem activation_no_raise_when_deps_parseable_witness :
    exceptOk (activate envDebug ⟨some "1.36.0", true, true⟩).result = true :=
  activation_no_raise_when_deps_parseable envDebug _ rfl
    (fun v hv => by injection hv with h; subst h; decide)

/-- C3: for every botocore version string that parses strictly below the
floor `1.11.3`, `instrument()` logs a warning naming both the installed
version and the required version `1.11.3`, returns successfully, and never
issues a `patch_all` call (the trace's patch list is empty and no
"patching all" step is reached); conversely a version equal to the floor
passes the gate and reaches the patch step. -/
theorem instrument_below_floor_warns_and_skips (s : DepState) (v : String) (pv : List Nat)
    (hb : s.botocore = some v) (hp : s.packaging = true)
    (hpv : parseVersion v = some pv) (hlt : versionLt pv minBotocore = true) :
    instrument s
      = .ok ⟨[LogCall.debug "Instrumenting AWS X-Ray",
              LogCall.debug "botocore package is available",
              LogCall.warning ("botocore version " ++ v ++ " is less than required 1.11.3. Skipping AWS X-Ray instrumentation.")],
             []⟩
    ∧ instrument { botocore := some "1.11.3", packaging := true, awsXraySdk := true }
      = .ok ⟨[LogCall.debug "Instrumenting AWS X-Ray",
              LogCall.debug "botocore package is available",
              LogCall.debug "botocore version is >= 1.11.3",
              LogCall.debug "patching all",
              LogCall.debug "AWS X-Ray instrumentation successfully applied."],
             [true]⟩ := by
  refine ⟨?_, rfl⟩
  simp only [instrument, hb, hpv]
  rw [if_neg (by simp [hp]), if_pos hlt]
  rfl

/-- Witness for C3 at the spec's own example version `1.10.0`. -/
theorem instrument_below_floor_warns_and_skips_witness :
    instrument ⟨some "1.10.0", true, true⟩
      = .ok ⟨[LogCall.debug "Instrumenting AWS X-Ray",
              LogCall.debug "botocore package is available",
              LogCall.warning "botocore version 1.10.0 is less than required 1.11.3. Skipping AWS X-Ray instrumentation."],
             []⟩
    ∧ instrument { botocore := some "1.11.3", packaging := true, awsXraySdk := true }
      = .ok ⟨[LogCall.debug "Instrumenting AWS X-Ray",
              LogCall.debug "botocore package is available",
              LogCall.debug "botocore version is >= 1.11.3",
              LogCall.debug "patching all",
              LogCall.debug "AWS X-Ray instrumentation successfully applied."],
             [true]⟩ :=
  instrument_below_floor_warns_and_skips ⟨some "1.10.0", true, true⟩ "1.10.0" [1, 10, 0]
    rfl rfl (by decide) (by decide)

/-- C4: the version gate orders versions semantically, not lexically:
under the comparison `instrument()` applies (`version.parse a <
version.parse b`), `1.9.0` is strictly below `1.11.3` — so `instrument`
takes the too-old branch for `1.9.0` — while a plain lexical string
comparison would order `1.9.0` strictly above `1.11.3`. -/
theorem version_compare_semantic_not_lexical :
    pyVersionLt "1.9.0" "1.11.3" = some true
    ∧ stringLexLt "1.9.0" "1.11.3" = false
    ∧ stringLexLt "1.11.3" "1.9.0" = true
    ∧ instrument { botocore := some "1.9.0", packaging := true, awsXraySdk := true }
      = .ok ⟨[LogCall.debug "Instrumenting AWS X-Ray",
              LogCall.debug "botocore package is available",
              LogCall.warning "botocore version 1.9.0 is less than required 1.11.3. Skipping AWS X-Ray instrumentation."],
             []⟩ :=
  ⟨by decide, by decide, by decide, rfl⟩

/-- C5: when both the presence check and the version check pass,
`instrument()` requests patching in double-patch-tolerant mode — its trace
issues exactly one `patch_all` call and that call carries
`double_patch=True` — and invoking `instrument()` a second time in the
same process raises no exception and yields the same externally observable
instrumented state (the process-wide patched flag) as invoking it once. -/
theorem instrument_double_patch_idempotent (s : DepState) (v : String) (pv : List Nat)
    (hb : s.botocore = some v) (hp : s.packaging = true)
    (hpv : parseVersion v = some pv) (hge : versionLt pv minBotocore = false)
    (hx : s.awsXraySdk = true) :
    (∃ r, instrument s = .ok r ∧ r.patches = [true])
    ∧ instrumentOn s procInit = .ok { patched := true }
    ∧ Except.bind (instrumentOn s procInit) (instrumentOn s) = instrumentOn s procInit := by
  have hins : instrument s
      = .ok ⟨[LogCall.debug "Instrumenting AWS X-Ray",
              LogCall.debug "botocore package is available",
              LogCall.debug "botocore version is >= 1.11.3",
              LogCall.debug "patching all",
              LogCall.debug "AWS X-Ray instrumentation successfully applied."],
             [true]⟩ := by
    simp only [instrument, hb, hpv]
    rw [if_neg (by simp [hp]), if_neg (by simp [hge]), if_pos hx]
    rfl
  have hrun : instrumentOn s procInit = .ok { patched := true } := by
    simp only [instrumentOn, hins]
    rfl
  have hrun2 : instrumentOn s { patched := true } = .ok { patched := true } := by
    simp only [instrumentOn, hins]
    rfl
  refine ⟨⟨_, hins, rfl⟩, hrun, ?_⟩
  rw [hrun]
  exact hrun2

/-- Witness for C5 at a concrete compatible state. -/
theorem instrument_double_patch_idempotent_witness :
    (∃ r, instrument ⟨some "1.36.0", true, true⟩ = .ok r ∧ r.patches = [true])
    ∧ instrumentOn ⟨some "1.36.0", true, true⟩ procInit = .ok { patched := true }
    ∧ Except.bind (instrumentOn ⟨some "1.36.0", true, true⟩ procInit)
        (instrumentOn ⟨some "1.36.0", true, true⟩)
        = instrumentOn ⟨some "1.36.0", true, true⟩ procInit :=
  instrument_double_patch_idempotent ⟨some "1.36.0", true, true⟩ "1.36.0" [1, 36, 0]
    rfl rfl (by decide) (by decide) rfl

/-- C6: for each missing optional dependency, `instrument()` logs a
warning and returns successfully without applying any patch.  With
botocore absent the trace stops right after the warning, so the
`patch_all` step is never reached (no "patching all" call and an empty
patch list); with the tracing SDK absent (and both checks otherwise
passing) the trace ends in the SDK warning with an empty patch list. -/
theorem instrument_missing_dependency_warns_and_skips (s : DepState) (v : String) (pv : List Nat) :
    (s.botocore = none →
      instrument s
        = .ok ⟨[LogCall.debug "Instrumenting AWS X-Ray",
                LogCall.warning "botocore package is not available. Skipping AWS X-Ray instrumentation."],
               []⟩)
    ∧ (s.awsXraySdk = false → s.botocore = some v → s.packaging = true →
       parseVersion v = some pv → versionLt pv minBotocore = false →
      instrument s
        = .ok ⟨[LogCall.debug "Instrumenting AWS X-Ray",
                LogCall.debug "botocore package is available",
                LogCall.debug "botocore version is >= 1.11.3",
                LogCall.warning "aws_xray_sdk package is not available. Skipping AWS X-Ray instrumentation."],
               []⟩) := by
  constructor
  · intro hb
    simp [instrument, hb]
  · intro hx hb hp hpv hge
    simp only [instrument, hb, hpv]
    rw [if_neg (by simp [hp]), if_neg (by simp [hge]), if_neg (by simp [hx])]
    rfl

/-- Witness for C6: both missing-dependency scenarios at concrete
states. -/
theorem instrument_missing_dependency_warns_and_skips_witness :
    instrument ⟨none, true, true⟩
      = .ok ⟨[LogCall.debug "Instrumenting AWS X-Ray",
              LogCall.warning "botocore package is not available. Skipping AWS X-Ray instrumentation."],
             []⟩
    ∧ instrument ⟨some "1.36.0", true, false⟩
      = .ok ⟨[LogCall.debug "Instrumenting AWS X-Ray",
              LogCall.debug "botocore package is available",
              LogCall.debug "botocore version is >= 1.11.3",
              LogCall.warning "aws_xray_sdk package is not available. Skipping AWS X-Ray instrumentation."],
             []⟩ :=
  ⟨(instrument_missing_dependency_warns_and_skips ⟨none, true, true⟩ "1.36.0" [1, 36, 0]).1 rfl,
   (instrument_missing_dependency_warns_and_skips ⟨some "1.36.0", true, false⟩ "1.36.0" [1, 36, 0]).2
     rfl rfl rfl (by decide) (by decide)⟩

/-- C7: two activation runs that differ only in the value (or absence) of
`AWS_LAMBDA_AWS_XRAY_LOGGING_LEVEL` have identical control flow: the
result traces (the same checks recorded in the same order, the same
`patch_all` invocations, the same success/error outcome) are equal; the
environment variable only moves the logger level, i.e. which of the
recorded calls get emitted. -/
theorem activation_control_flow_independent_of_log_level (e1 e2 : Env) (s : DepState)
    (_h : ∀ k, k ≠ "AWS_LAMBDA_AWS_XRAY_LOGGING_LEVEL" → e1 k = e2 k) :
    (activate e1 s).result = (activate e2 s).result := rfl

/-- Witness for C7: a run with the variable set to `DEBUG` against a run
with it unset, on the same compatible dependency state. -/
theorem activation_control_flow_independent_of_log_level_witness :
    (activate envDebug ⟨some "1.36.0", true, true⟩).result
      = (activate envEmpty ⟨some "1.36.0", true, true⟩).result :=
  activation_control_flow_independent_of_log_level envDebug envEmpty ⟨some "1.36.0", true, true⟩
    (fun k hk => by simp [envDebug, envEmpty, hk])

/-- C8 (wrapper modelled from the spec): in normal (non-self-test)
operation, for every configured entry-point path that does not exist or is
not executable, the wrapper process exits with code 127 — the host's
standard "command not found" convention — produces no output, and never
transfers control to the entry point. -/
theorem wrapper_bad_target_exits_127 (env : Env) (w : WrapperWorld) (target : String)
    (hmode : env "TEST_AND_EXIT" = none)
    (hbad : w.pathFound target = false ∨ w.pathExecutable target = false) :
    wrapperRun env w target = { exitCode := 127, output := [], execedTarget := false } := by
  unfold wrapperRun
  rw [hmode]
  rcases hbad with h | h <;> simp [h]

/-- Witness for C8 at the test's concrete path `/this/does/not/exist` in a
world where no path exists. -/
theorem wrapper_bad_target_exits_127_witness :
    wrapperRun envEmpty worldBad "/this/does/not/exist"
      = { exitCode := 127, output := [], execedTarget := false } :=
  wrapper_bad_target_exits_127 envEmpty worldBad "/this/does/not/exist" rfl (Or.inl rfl)

/-- C9 (wrapper modelled from the spec): with the self-test trigger
`TEST_AND_EXIT` set, `TEST_AND_EXIT_TIMEOUT` set to `2`, and the
diagnostic command finishing within that window, the wrapper prints the
line starting with the literal marker `TEST_AND_EXIT: Command output:`
followed by the diagnostic's output, exits with status 0, and does not
exec the real entry point. -/
theorem wrapper_self_test_marker_and_exit0 (env : Env) (w : WrapperWorld) (target : String)
    (hst : env "TEST_AND_EXIT" = some "1")
    (hto : env "TEST_AND_EXIT_TIMEOUT" = some "2")
    (hd : w.diagDuration ≤ 2) :
    wrapperRun env w target
      = { exitCode := 0, output := [testMarker ++ " " ++ w.diagOutput], execedTarget := false } := by
  unfold wrapperRun
  rw [hst, hto]
  have h2 : decimalChars ['2'] = some 2 := by decide
  simp [h2, hd]

/-- Witness for C9: the environment `test_sitecustomize` sets, with a
one-time-unit diagnostic. -/
theorem wrapper_self_test_marker_and_exit0_witness :
    wrapperRun envSelfTest worldGood "/opt/bin/bootstrap"
      = { exitCode := 0, output := [testMarker ++ " " ++ worldGood.diagOutput],
          execedTarget := false } :=
  wrapper_self_test_marker_and_exit0 envSelfTest worldGood "/opt/bin/bootstrap"
    rfl rfl (by decide)

/-- C10: `setup()` switches the activator's logger to DEBUG if and only if
`AWS_LAMBDA_AWS_XRAY_LOGGING_LEVEL` equals the exact case-sensitive string
`DEBUG`; for any other value — lowercase `debug` included — and for the
variable being unset, the logger stays at the INFO default established at
module load. -/
theorem setup_debug_level_iff_env_debug (env : Env) :
    setup env LOG_INFO
      = (if env "AWS_LAMBDA_AWS_XRAY_LOGGING_LEVEL" = some "DEBUG" then LOG_DEBUG
         else LOG_INFO) := by
  unfold setup
  cases h : env "AWS_LAMBDA_AWS_XRAY_LOGGING_LEVEL" with
  | none =>
      rw [Option.getD_none, if_neg (by decide), if_neg (by simp)]
  | some x =>
      rw [Option.getD_some]
      by_cases hx : x = "DEBUG" <;> simp [hx]
